import Mathlib

/-!
Shallow embedding of the TruckFlow server (`src/server.ts`): the relational
store created at startup, the auth middleware, the REST handlers for
signup / login / admin-approve / messages, the CRUD handlers that write the
store (loads, trucks, applications, reviews), and the socket.io chat handlers
(`join` / `send_message` / `receive_message` fan-out).

Modelling conventions:
* SQLite rows become Lean structures with the schema's columns; a table is the
  list of its rows in rowid (insertion) order.
* `AUTOINCREMENT` ids are explicit `next…Id` counters in the store (SQLite's
  AUTOINCREMENT never reuses ids, matching a monotone counter).
* `DATETIME DEFAULT CURRENT_TIMESTAMP` becomes a `now : Nat` parameter passed
  to each inserting operation.
* The SQL `ORDER BY created_at ASC` over a table scan is modelled as a stable
  sort (`List.insertionSort`) of the rowid-ordered matching rows.
* better-sqlite3 never issues `PRAGMA foreign_keys = ON`, so SQLite's declared
  FOREIGN KEY clauses are not enforced at runtime; inserts therefore do not
  check that referenced user ids exist, exactly as in the running code.
* Each handler returns the new store plus an `ApiResult` (the JSON response or
  an HTTP error status); socket emissions are a list of
  (channel userId, message) pairs in emit order.
-/

namespace TruckFlow

/-- Row of the `users` table. `is_approved` is the INTEGER column (0/1). -/
structure User where
  id : Nat
  email : String
  password : String
  role : String
  name : String
  company : Option String
  phone : Option String
  is_approved : Nat
  created_at : Nat
deriving DecidableEq, Repr

/-- Row of the `messages` table. -/
structure Message where
  id : Nat
  sender_id : Nat
  receiver_id : Nat
  content : String
  created_at : Nat
deriving DecidableEq, Repr

/-- Row of the `loads` table (`rate` is the REAL column). -/
structure Load where
  id : Nat
  shipper_id : Nat
  pickup_location : String
  delivery_location : String
  weight : Option String
  truck_type : Option String
  rate : Float
  contact_details : Option String
  status : String
  created_at : Nat

/-- Row of the `trucks` table. -/
structure Truck where
  id : Nat
  driver_id : Nat
  current_location : String
  truck_type : String
  availability_date : String
  contact : Option String
  created_at : Nat
deriving DecidableEq, Repr

/-- Row of the `applications` table. -/
structure Application where
  id : Nat
  load_id : Nat
  driver_id : Nat
  status : String
  created_at : Nat
deriving DecidableEq, Repr

/-- Row of the `reviews` table. -/
structure Review where
  id : Nat
  reviewer_id : Nat
  reviewee_id : Nat
  rating : Int
  comment : Option String
  created_at : Nat
deriving DecidableEq, Repr

/-- The SQLite database: one list per table, rows in rowid order, plus the
AUTOINCREMENT counters. -/
structure Store where
  users : List User
  loads : List Load
  trucks : List Truck
  applications : List Application
  messages : List Message
  reviews : List Review
  nextUserId : Nat
  nextLoadId : Nat
  nextTruckId : Nat
  nextApplicationId : Nat
  nextMessageId : Nat
  nextReviewId : Nat

/-- Outcome of a request: the JSON payload on success, or an HTTP error status
plus the short message the server sends. -/
inductive ApiResult (α : Type) where
  | ok (value : α)
  | err (status : Nat) (msg : String)
deriving DecidableEq, Repr

/-- Digit value of a character, `none` for non-digits. -/
def charDigit (c : Char) : Option Nat :=
  if 48 ≤ c.toNat ∧ c.toNat ≤ 57 then some (c.toNat - 48) else none

/-- The ASCII whitespace SQLite's numeric scanner skips (space, tab, newline,
vertical tab, form feed, carriage return — sqlite3Isspace). -/
def isSqlSpace (c : Char) : Bool :=
  c = ' ' || c = '\t' || c = '\n' || c = '\x0b' || c = '\x0c' || c = '\r'

/-- Drop leading SQLite whitespace. -/
def skipSpaces : List Char → List Char
  | [] => []
  | c :: cs => if isSqlSpace c then skipSpaces cs else c :: cs

/-- Consume leading digits, returning how many were consumed, their base-10
value, and the rest of the input. -/
def takeDigitsAux : List Char → Nat → Nat → Nat × Nat × List Char
  | [], cnt, acc => (cnt, acc, [])
  | c :: cs, cnt, acc =>
    match charDigit c with
    | none => (cnt, acc, c :: cs)
    | some d => takeDigitsAux cs (cnt + 1) (acc * 10 + d)

/-- Consume an optional leading sign. -/
def takeSign : List Char → Int × List Char
  | '+' :: cs => (1, cs)
  | '-' :: cs => (-1, cs)
  | cs => (1, cs)

/-- Exact value of a well-formed SQLite numeric literal: a sign, the mantissa
digits (integer and fraction parts concatenated) and a base-10 exponent, so
the value is `sgn * mant * 10 ^ exp`. -/
structure SqlNum where
  sgn : Int
  mant : Nat
  exp : Int
deriving DecidableEq, Repr

/-- Whether the converted numeric value equals the INTEGER id `n`: SQLite
compares a numeric-affinity-converted operand against an INTEGER column by
numeric value, INTEGER or REAL alike (exact arithmetic here). -/
def SqlNum.eqNat (v : SqlNum) (n : Nat) : Bool :=
  if v.sgn < 0 then v.mant == 0 && n == 0
  else
    match v.exp with
    | Int.ofNat e => v.mant * 10 ^ e == n
    | Int.negSucc e => v.mant == n * 10 ^ (e + 1)

/-- Parse the tail of an exponent after `e`/`E`: optional sign, at least one
digit, optional trailing whitespace; `none` otherwise. -/
def parseExp (l : List Char) : Option Int :=
  let sp := takeSign l
  let d := takeDigitsAux sp.2 0 0
  if d.1 = 0 then none
  else if (skipSpaces d.2.2).isEmpty then some (sp.1 * (d.2.1 : Int))
  else none

/-- SQLite's numeric affinity applied to a bound TEXT value compared against
the INTEGER `id` column (sqlite3AtoF's grammar): optional whitespace, an
optional sign, digits with an optional decimal point and an optional
exponent, optional trailing whitespace, with at least one mantissa digit —
so " 1", "+1", "1.0" and "1e0" all convert while "", "abc" or "1x" stay TEXT
(`none`) and can never equal an INTEGER id. The value is kept exact: the
IEEE-754 rounding of a REAL conversion is not modelled, which agrees with
SQLite whenever the literal denotes an integer below 2^53, as every user id
does. -/
def sqliteNumeric (s : String) : Option SqlNum :=
  let sp := takeSign (skipSpaces s.data)
  let d1 := takeDigitsAux sp.2 0 0
  let f :=
    match d1.2.2 with
    | '.' :: rest =>
      let d2 := takeDigitsAux rest 0 0
      (d2.1, d2.2.1, d2.2.2)
    | rest => (0, 0, rest)
  if d1.1 + f.1 = 0 then none
  else
    let mant := d1.2.1 * 10 ^ f.1 + f.2.1
    match f.2.2 with
    | 'e' :: rest =>
      match parseExp rest with
      | none => none
      | some ex => some ⟨sp.1, mant, ex - (f.1 : Int)⟩
    | 'E' :: rest =>
      match parseExp rest with
      | none => none
      | some ex => some ⟨sp.1, mant, ex - (f.1 : Int)⟩
    | rest =>
      if (skipSpaces rest).isEmpty then some ⟨sp.1, mant, -(f.1 : Int)⟩
      else none

/-- The auth middleware's caller resolution: the `authorization` header is the
raw user id as text; a missing or empty (falsy) header fails before the
query, and otherwise `SELECT * FROM users WHERE id = ?` applies numeric
affinity to the bound text and returns the first row whose id equals the
converted value. -/
def authLookup (header : Option String) (s : Store) : Option User :=
  match header with
  | none => none
  | some h =>
    if h = "" then none
    else
      match sqliteNumeric h with
      | none => none
      | some v => s.users.find? (fun u => v.eqNat u.id)

/-- `POST /api/auth/signup`: inserts the user (admin auto-approved, others
pending) and returns the full inserted row; a duplicate email violates the
UNIQUE constraint and is surfaced as a 400. -/
def signup (email password role nm : String) (company phone : Option String)
    (now : Nat) (s : Store) : Store × ApiResult User :=
  if s.users.any (fun u => u.email == email) then
    (s, ApiResult.err 400 "UNIQUE constraint failed: users.email")
  else
    let u : User :=
      { id := s.nextUserId, email := email, password := password, role := role,
        name := nm, company := company, phone := phone,
        is_approved := if role = "admin" then 1 else 0, created_at := now }
    ({ s with users := s.users ++ [u], nextUserId := s.nextUserId + 1 },
     ApiResult.ok u)

/-- `POST /api/auth/login`: `SELECT * FROM users WHERE email = ? AND
password = ?`; returns the full row or `401 Invalid credentials`. -/
def login (email password : String) (s : Store) : ApiResult User :=
  match s.users.find? (fun u => u.email == email && u.password == password) with
  | none => ApiResult.err 401 "Invalid credentials"
  | some u => ApiResult.ok u

/-- `UPDATE users SET is_approved = 1 WHERE id = ?` applied to one row. -/
def approveRow (targetId : Nat) (u : User) : User :=
  if u.id = targetId then { u with is_approved := 1 } else u

/-- `UPDATE users SET is_approved = 1 WHERE id = ?` over the table. -/
def approveUsers (targetId : Nat) (users : List User) : List User :=
  users.map (approveRow targetId)

/-- `POST /api/admin/users/:id/approve` (after auth): 403 for non-admin
callers, otherwise runs the UPDATE and answers `{success: true}`. -/
def approveH (caller : User) (targetId : Nat) (s : Store) :
    Store × ApiResult Unit :=
  if caller.role = "admin" then
    ({ s with users := approveUsers targetId s.users }, ApiResult.ok ())
  else (s, ApiResult.err 403 "Forbidden")

/-- The row a message INSERT produces: server-assigned id (next counter) and
`created_at` = current time. -/
def mkMessage (s : Store) (senderId receiverId : Nat) (content : String)
    (now : Nat) : Message :=
  { id := s.nextMessageId, sender_id := senderId, receiver_id := receiverId,
    content := content, created_at := now }

/-- `INSERT INTO messages (sender_id, receiver_id, content) VALUES (?, ?, ?)`
followed by `SELECT * FROM messages WHERE id = last_insert_rowid()`. No
content or foreign-key check happens (foreign keys are not enabled). -/
def insertMessage (senderId receiverId : Nat) (content : String) (now : Nat)
    (s : Store) : Store × Message :=
  let m := mkMessage s senderId receiverId content now
  ({ s with messages := s.messages ++ [m],
            nextMessageId := s.nextMessageId + 1 }, m)

/-- `POST /api/messages/send` handler body (after auth): inserts with
`sender_id = req.user.id` and echoes the stored row. -/
def sendRest (caller : User) (receiverId : Nat) (content : String) (now : Nat)
    (s : Store) : Store × ApiResult Message :=
  let r := insertMessage caller.id receiverId content now s
  (r.1, ApiResult.ok r.2)

/-- The socket.io `send_message` handler: insert, read back the row, then
`io.to(user_receiver).emit("receive_message", m)` followed by
`io.to(user_sender).emit("receive_message", m)`. Returns the new store, the
stored row, and the emission trace in emit order. -/
def socketSendMessage (senderId receiverId : Nat) (content : String)
    (now : Nat) (s : Store) : Store × Message × List (Nat × Message) :=
  let r := insertMessage senderId receiverId content now s
  (r.1, r.2, [(receiverId, r.2), (senderId, r.2)])

/-- The WHERE clause of the history query:
`(sender_id = ? AND receiver_id = ?) OR (sender_id = ? AND receiver_id = ?)`
with the caller/other ids in both orders. -/
def msgMatch (a b : Nat) (m : Message) : Bool :=
  (m.sender_id == a && m.receiver_id == b) ||
    (m.sender_id == b && m.receiver_id == a)

/-- Comparison used by `ORDER BY created_at ASC`. -/
def chron (m1 m2 : Message) : Prop := m1.created_at ≤ m2.created_at

instance : DecidableRel chron := fun m1 m2 =>
  inferInstanceAs (Decidable (m1.created_at ≤ m2.created_at))

/-- `GET /api/messages/:otherId` query: scan `messages` in rowid order, keep
the rows of the conversation, stable-sort by `created_at`. -/
def history (me other : Nat) (s : Store) : List Message :=
  List.insertionSort chron (s.messages.filter (msgMatch me other))

/-- `POST /api/loads` (after auth): shipper-only insert returning the new id. -/
def postLoad (caller : User) (pickup_location delivery_location : String)
    (weight truck_type : Option String) (rate : Float)
    (contact_details : Option String) (now : Nat) (s : Store) :
    Store × ApiResult Nat :=
  if caller.role = "shipper" then
    let l : Load :=
      { id := s.nextLoadId, shipper_id := caller.id,
        pickup_location := pickup_location,
        delivery_location := delivery_location, weight := weight,
        truck_type := truck_type, rate := rate,
        contact_details := contact_details, status := "available",
        created_at := now }
    ({ s with loads := s.loads ++ [l], nextLoadId := s.nextLoadId + 1 },
     ApiResult.ok l.id)
  else (s, ApiResult.err 403 "Only shippers can post loads")

/-- `DELETE /api/loads/:id` (after auth): 403 when the load is absent or the
caller is neither its shipper nor an admin; otherwise deletes the row. -/
def deleteLoad (caller : User) (loadId : Nat) (s : Store) :
    Store × ApiResult Unit :=
  match s.loads.find? (fun l => l.id == loadId) with
  | none => (s, ApiResult.err 403 "Unauthorized")
  | some l =>
    if l.shipper_id ≠ caller.id ∧ caller.role ≠ "admin" then
      (s, ApiResult.err 403 "Unauthorized")
    else
      ({ s with loads := s.loads.filter (fun l2 => l2.id != loadId) },
       ApiResult.ok ())

/-- `POST /api/trucks` (after auth): driver-only insert returning the new id. -/
def postTruck (caller : User) (current_location truck_type
    availability_date : String) (contact : Option String) (now : Nat)
    (s : Store) : Store × ApiResult Nat :=
  if caller.role = "driver" then
    let t : Truck :=
      { id := s.nextTruckId, driver_id := caller.id,
        current_location := current_location, truck_type := truck_type,
        availability_date := availability_date, contact := contact,
        created_at := now }
    ({ s with trucks := s.trucks ++ [t], nextTruckId := s.nextTruckId + 1 },
     ApiResult.ok t.id)
  else (s, ApiResult.err 403 "Only drivers can post trucks")

/-- `POST /api/loads/:id/apply` (after auth): driver-only insert of an
application (the load id is not checked to exist — foreign keys are off). -/
def applyLoad (caller : User) (loadId : Nat) (now : Nat) (s : Store) :
    Store × ApiResult Nat :=
  if caller.role = "driver" then
    let a : Application :=
      { id := s.nextApplicationId, load_id := loadId, driver_id := caller.id,
        status := "pending", created_at := now }
    ({ s with applications := s.applications ++ [a],
              nextApplicationId := s.nextApplicationId + 1 },
     ApiResult.ok a.id)
  else (s, ApiResult.err 403 "Only drivers can apply")

/-- `POST /api/reviews` (after auth): unconditional insert. -/
def postReview (caller : User) (reviewee_id : Nat) (rating : Int)
    (comment : Option String) (now : Nat) (s : Store) :
    Store × ApiResult Unit :=
  let rv : Review :=
    { id := s.nextReviewId, reviewer_id := caller.id,
      reviewee_id := reviewee_id, rating := rating, comment := comment,
      created_at := now }
  ({ s with reviews := s.reviews ++ [rv], nextReviewId := s.nextReviewId + 1 },
   ApiResult.ok ())

/-- Reachable-store invariant used for ordering claims: rowid order lists ids
in strictly increasing order (AUTOINCREMENT assigns increasing ids). -/
def idsIncreasing (l : List Message) : Prop :=
  l.Pairwise (fun a b => a.id < b.id)

instance (l : List Message) : Decidable (idsIncreasing l) :=
  inferInstanceAs
    (Decidable (l.Pairwise (fun a b : Message => a.id < b.id)))

/-- Chronological order with ties broken by id (insertion order): the order
the spec requires of a fetched conversation. -/
def chronStrict (m1 m2 : Message) : Prop :=
  m1.created_at < m2.created_at ∨
    (m1.created_at = m2.created_at ∧ m1.id < m2.id)

instance : DecidableRel chronStrict := fun m1 m2 =>
  inferInstanceAs (Decidable (m1.created_at < m2.created_at ∨
    (m1.created_at = m2.created_at ∧ m1.id < m2.id)))

/-- An empty database right after the CREATE TABLE statements run. -/
def emptyStore : Store :=
  { users := [], loads := [], trucks := [], applications := [],
    messages := [], reviews := [], nextUserId := 1, nextLoadId := 1,
    nextTruckId := 1, nextApplicationId := 1, nextMessageId := 1,
    nextReviewId := 1 }

/-- Demo shipper used in concrete scenarios. -/
def user1 : User :=
  { id := 1, email := "alice@x.com", password := "pw1", role := "shipper",
    name := "Alice", company := none, phone := none, is_approved := 0,
    created_at := 0 }

/-- Demo driver used in concrete scenarios. -/
def user2 : User :=
  { id := 2, email := "bob@x.com", password := "pw2", role := "driver",
    name := "Bob", company := none, phone := none, is_approved := 0,
    created_at := 0 }

/-- Demo admin used in concrete scenarios. -/
def adminUser : User :=
  { id := 3, email := "admin@x.com", password := "pw3", role := "admin",
    name := "Root", company := none, phone := none, is_approved := 1,
    created_at := 0 }

/-- A store holding the three demo accounts and no other rows. -/
def s0 : Store :=
  { emptyStore with users := [user1, user2, adminUser], nextUserId := 4 }

/-- A message with all older ids inserted by `orderedInsert` into a list that
is chronologically sorted with id tie-breaks lands so that the result is again
sorted with id tie-breaks (stability of the insertion). -/
theorem orderedInsert_chronStrict (a : Message) :
    ∀ l : List Message, l.Pairwise chronStrict → (∀ b ∈ l, a.id < b.id) →
      (List.orderedInsert chron a l).Pairwise chronStrict
  | [], _, _ => by simp
  | b :: t, hl, hid => by
    rw [List.orderedInsert]
    by_cases h : chron a b
    · rw [if_pos h]
      refine List.pairwise_cons.2 ⟨?_, hl⟩
      intro c hc
      have hac : a.created_at ≤ c.created_at := by
        rcases List.mem_cons.1 hc with rfl | hct
        · exact h
        · have hbc := (List.pairwise_cons.1 hl).1 c hct
          rcases hbc with h1 | ⟨h1, _⟩
          · exact Nat.le_trans h (Nat.le_of_lt h1)
          · exact Nat.le_trans h (Nat.le_of_eq h1)
      rcases Nat.lt_or_ge a.created_at c.created_at with hlt | hge
      · exact Or.inl hlt
      · exact Or.inr ⟨Nat.le_antisymm hac hge, hid c hc⟩
    · rw [if_neg h]
      have hba : b.created_at < a.created_at := Nat.not_le.1 h
      refine List.pairwise_cons.2 ⟨?_, ?_⟩
      · intro c hc
        rcases (List.mem_orderedInsert chron).1 hc with rfl | hct
        · exact Or.inl hba
        · exact (List.pairwise_cons.1 hl).1 c hct
      · exact orderedInsert_chronStrict a t (List.pairwise_cons.1 hl).2
          (fun b2 hb2 => hid b2 (List.mem_cons_of_mem _ hb2))

/-- Stability of the modelled `ORDER BY created_at ASC`: sorting a list whose
ids strictly increase (rowid order) yields a list sorted chronologically with
ties in id (insertion) order. -/
theorem insertionSort_chronStrict :
    ∀ l : List Message, l.Pairwise (fun a b => a.id < b.id) →
      (List.insertionSort chron l).Pairwise chronStrict
  | [], _ => by simp
  | x :: xs, h => by
    rw [List.insertionSort]
    refine orderedInsert_chronStrict x (List.insertionSort chron xs)
      (insertionSort_chronStrict xs (List.pairwise_cons.1 h).2) ?_
    intro b hb
    exact (List.pairwise_cons.1 h).1 b ((List.mem_insertionSort chron).1 hb)

/-- C3: for every pair of users A and B, `history(A,B)` returns exactly the
messages whose {sender,receiver} pair equals {A,B} in either direction
(a permutation of the matching rows), in order non-decreasing by creation
time with ties broken by message identifier (insertion order), and an empty
conversation returns an empty sequence, never an error. -/
theorem c3_history_exact_ordered (a b : Nat) (s : Store)
    (hids : idsIncreasing s.messages) :
    (history a b s).Perm (s.messages.filter (msgMatch a b))
    ∧ (history a b s).Pairwise chronStrict
    ∧ (s.messages.filter (msgMatch a b) = [] → history a b s = []) := by
  refine ⟨List.perm_insertionSort chron _, ?_, ?_⟩
  · exact insertionSort_chronStrict _
      (List.Pairwise.sublist (List.filter_sublist _) hids)
  · intro h
    unfold history
    rw [h]
    rfl

/-- A store with a conversation between users 1 and 2 holding a creation-time
tie (messages 1 and 2) and an unrelated message to user 3. -/
def demoStore : Store :=
  { s0 with
    messages :=
      [{ id := 1, sender_id := 1, receiver_id := 2, content := "Hello",
         created_at := 10 },
       { id := 2, sender_id := 2, receiver_id := 1, content := "Hi back",
         created_at := 10 },
       { id := 3, sender_id := 1, receiver_id := 3, content := "other",
         created_at := 4 }],
    nextMessageId := 4 }

/-- Witness for C3 at the concrete store `demoStore`. -/
theorem c3_witness :
    idsIncreasing demoStore.messages
    ∧ ((history 1 2 demoStore).Perm
          (demoStore.messages.filter (msgMatch 1 2))
        ∧ (history 1 2 demoStore).Pairwise chronStrict
        ∧ (demoStore.messages.filter (msgMatch 1 2) = []
            → history 1 2 demoStore = [])) :=
  ⟨by decide, c3_history_exact_ordered 1 2 demoStore (by decide)⟩

/-- C5: for every pair of users A and B and every store state, `history(A,B)`
returns the same ordered sequence as `history(B,A)`. -/
theorem c5_history_symm (a b : Nat) (s : Store) :
    history a b s = history b a s := by
  unfold history
  congr 1
  apply List.filter_congr
  intro m _
  simp [msgMatch, Bool.or_comm]

/-- C7: every signup creates its user with the approval flag 0 unless the
requested role is admin (then 1), appends exactly that row, and no other
store-writing operation (loads, trucks, applications, reviews, either message
path) touches the `users` table — so the flag is mutated only by signup and
admin-approve. -/
theorem c7_approval_flag (e pw role nm : String) (co ph : Option String)
    (now : Nat) (s s2 : Store) (u caller : User) (p d : String)
    (w tt : Option String) (rate : Float) (cd : Option String)
    (lid rid rvid senderId receiverId : Nat) (cl tty ad : String)
    (ct : Option String) (rating : Int) (cm : Option String)
    (content : String) (n2 n3 n4 n5 : Nat)
    (h : signup e pw role nm co ph now s = (s2, ApiResult.ok u)) :
    u.is_approved = (if role = "admin" then 1 else 0)
    ∧ s2.users = s.users ++ [u]
    ∧ (postLoad caller p d w tt rate cd n2 s).1.users = s.users
    ∧ (deleteLoad caller lid s).1.users = s.users
    ∧ (postTruck caller cl tty ad ct n3 s).1.users = s.users
    ∧ (applyLoad caller lid n4 s).1.users = s.users
    ∧ (postReview caller rvid rating cm n5 s).1.users = s.users
    ∧ (sendRest caller rid content n2 s).1.users = s.users
    ∧ (socketSendMessage senderId receiverId content n2 s).1.users
        = s.users := by
  unfold signup at h
  by_cases hdup : s.users.any (fun v => v.email == e)
  · rw [if_pos hdup] at h
    injection h with h1 h2
    exact ApiResult.noConfusion h2
  · rw [if_neg hdup] at h
    injection h with h1 h2
    injection h2 with h3
    subst h3
    refine ⟨rfl, ?_, ?_, ?_, ?_, ?_, rfl, rfl, rfl⟩
    · rw [← h1]
    · unfold postLoad
      split <;> rfl
    · unfold deleteLoad
      split
      · rfl
      · split <;> rfl
    · unfold postTruck
      split <;> rfl
    · unfold applyLoad
      split <;> rfl

/-- The row a successful demo signup of driver "Bob" produces. -/
def sigU : User :=
  { id := 1, email := "bob2@x.com", password := "p", role := "driver",
    name := "Bob", company := none, phone := none, is_approved := 0,
    created_at := 3 }

/-- The store after the demo signup of `sigU` into the empty database. -/
def sigS2 : Store :=
  { emptyStore with users := [sigU], nextUserId := 2 }

/-- Witness for C7: concrete driver signup plus the frame facts at `s0`. -/
theorem c7_witness :
    signup "bob2@x.com" "p" "driver" "Bob" none none 3 emptyStore
        = (sigS2, ApiResult.ok sigU)
    ∧ sigU.is_approved = (if "driver" = "admin" then 1 else 0) :=
  ⟨rfl,
    (c7_approval_flag "bob2@x.com" "p" "driver" "Bob" none none 3 emptyStore
      sigS2 sigU user1 "A" "B" none none 0 none 1 2 2 1 2 "L" "flatbed" "d"
      none 5 none "hi" 4 4 4 4 rfl).1⟩

/-- Sanity check of the affinity model against SQLite's conversion: signed,
whitespace-padded, real and exponent spellings of an id resolve to that user,
while non-numeric text and unknown ids do not. -/
theorem authLookup_affinity_examples :
    authLookup (some "+1") s0 = some user1
    ∧ authLookup (some " 1") s0 = some user1
    ∧ authLookup (some "1.0") s0 = some user1
    ∧ authLookup (some "1e0") s0 = some user1
    ∧ authLookup (some "2 ") s0 = some user2
    ∧ authLookup (some "abc") s0 = none
    ∧ authLookup (some "1x") s0 = none
    ∧ authLookup (some "99") s0 = none := by
  decide

/-- C9: both login and signup return the full user row, so each response
carries the stored plaintext password verbatim: a successful login's row is a
stored row whose password equals the submitted one, and a successful signup's
row carries the submitted password as stored. -/
theorem c9_password_in_response (e p e2 p2 role nm : String)
    (co ph : Option String) (now : Nat) (s s2 : Store) (u v : User)
    (hl : login e p s = ApiResult.ok u)
    (hs : signup e2 p2 role nm co ph now s = (s2, ApiResult.ok v)) :
    (u.password = p ∧ u ∈ s.users) ∧ v.password = p2 ∧ v ∈ s2.users := by
  constructor
  · unfold login at hl
    cases hf : s.users.find? (fun w => w.email == e && w.password == p) with
    | none =>
      rw [hf] at hl
      exact ApiResult.noConfusion hl
    | some w =>
      rw [hf] at hl
      injection hl with hw
      subst hw
      constructor
      · have hp := List.find?_some hf
        simp at hp
        exact hp.2
      · exact List.mem_of_find?_eq_some hf
  · unfold signup at hs
    by_cases hdup : s.users.any (fun w => w.email == e2)
    · rw [if_pos hdup] at hs
      injection hs with h1 h2
      exact ApiResult.noConfusion h2
    · rw [if_neg hdup] at hs
      injection hs with h1 h2
      injection h2 with h3
      subst h3
      refine ⟨rfl, ?_⟩
      rw [← h1]
      exact List.mem_append_right _ (List.mem_singleton.2 rfl)

/-- The row "Bob" gets when signing up against the populated store `s0`. -/
def sigU9 : User :=
  { id := 4, email := "bob2@x.com", password := "p", role := "driver",
    name := "Bob", company := none, phone := none, is_approved := 0,
    created_at := 3 }

/-- The store after `sigU9` signs up against `s0`. -/
def sigS9 : Store :=
  { s0 with users := s0.users ++ [sigU9], nextUserId := 5 }

/-- Witness for C9: user 1 logs in with their stored credentials and "Bob"
signs up, both against `s0`. -/
theorem c9_witness :
    login "alice@x.com" "pw1" s0 = ApiResult.ok user1
    ∧ signup "bob2@x.com" "p" "driver" "Bob" none none 3 s0
        = (sigS9, ApiResult.ok sigU9)
    ∧ ((user1.password = "pw1" ∧ user1 ∈ s0.users)
        ∧ sigU9.password = "p" ∧ sigU9 ∈ sigS9.users) :=
  ⟨by decide, rfl,
    c9_password_in_response "alice@x.com" "pw1" "bob2@x.com" "p" "driver"
      "Bob" none none 3 s0 sigS9 user1 sigU9 (by decide) rfl⟩

/-- Re-running the approve UPDATE on a row changes nothing further. -/
theorem approveRow_idem (tid : Nat) (u : User) :
    approveRow tid (approveRow tid u) = approveRow tid u := by
  by_cases h : u.id = tid
  · simp [approveRow, h]
  · simp [approveRow, h]

/-- Re-running the approve UPDATE on the table changes nothing further. -/
theorem approveUsers_idem (tid : Nat) (l : List User) :
    approveUsers tid (approveUsers tid l) = approveUsers tid l := by
  unfold approveUsers
  rw [List.map_map]
  apply List.map_congr_left
  intro a _
  exact approveRow_idem tid a

/-- The approve UPDATE is the identity on a table whose targeted rows are
already approved. -/
theorem approveUsers_noop (tid : Nat) :
    ∀ l : List User, (∀ u ∈ l, u.id = tid → u.is_approved = 1) →
      approveUsers tid l = l
  | [], _ => rfl
  | x :: xs, hall => by
    have htail : approveUsers tid xs = xs :=
      approveUsers_noop tid xs (fun u hu => hall u (List.mem_cons_of_mem _ hu))
    unfold approveUsers at htail ⊢
    rw [List.map_cons, htail]
    congr 1
    unfold approveRow
    by_cases hx : x.id = tid
    · rw [if_pos hx]
      have h1 := hall x (List.mem_cons_self x xs) hx
      obtain ⟨i1, e1, p1, r1, n1, c1, ph1, a1, t1⟩ := x
      simp only at h1
      rw [show a1 = 1 from h1]
    · rw [if_neg hx]

/-- C10: an admin approve call on user id N changes nothing but user N's
approval flag: the five other tables are untouched, the users table keeps its
length, every row with a different id survives unchanged, the targeted rows
only have their flag set (all other fields kept), nothing else appears, the
call is idempotent, and approving an already-approved user is a no-op. -/
theorem c10_approve_frame (caller : User) (tid : Nat) (s : Store)
    (hadmin : caller.role = "admin") :
    ((approveH caller tid s).1.loads = s.loads
      ∧ (approveH caller tid s).1.trucks = s.trucks
      ∧ (approveH caller tid s).1.applications = s.applications
      ∧ (approveH caller tid s).1.messages = s.messages
      ∧ (approveH caller tid s).1.reviews = s.reviews)
    ∧ (approveH caller tid s).1.users.length = s.users.length
    ∧ (∀ u ∈ s.users, u.id ≠ tid → u ∈ (approveH caller tid s).1.users)
    ∧ (∀ u ∈ s.users, u.id = tid →
        { u with is_approved := 1 } ∈ (approveH caller tid s).1.users)
    ∧ (∀ v ∈ (approveH caller tid s).1.users,
        ∃ u ∈ s.users,
          v = u ∨ (u.id = tid ∧ v = { u with is_approved := 1 }))
    ∧ (approveH caller tid (approveH caller tid s).1).1
        = (approveH caller tid s).1
    ∧ ((∀ u ∈ s.users, u.id = tid → u.is_approved = 1) →
        (approveH caller tid s).1 = s) := by
  have happ : approveH caller tid s
      = ({ s with users := approveUsers tid s.users }, ApiResult.ok ()) := by
    unfold approveH
    rw [if_pos hadmin]
  rw [happ]
  refine ⟨⟨rfl, rfl, rfl, rfl, rfl⟩, ?_, ?_, ?_, ?_, ?_, ?_⟩
  · exact List.length_map s.users (approveRow tid)
  · intro u hu hne
    exact List.mem_map.2 ⟨u, hu, by simp [approveRow, hne]⟩
  · intro u hu he
    exact List.mem_map.2 ⟨u, hu, by simp [approveRow, he]⟩
  · intro v hv
    obtain ⟨u, hu, hfu⟩ := List.mem_map.1 hv
    refine ⟨u, hu, ?_⟩
    by_cases h : u.id = tid
    · exact Or.inr ⟨h, by rw [← hfu]; simp [approveRow, h]⟩
    · exact Or.inl (by rw [← hfu]; simp [approveRow, h])
  · show (approveH caller tid { s with users := approveUsers tid s.users }).1
        = { s with users := approveUsers tid s.users }
    unfold approveH
    rw [if_pos hadmin]
    show ({ s with users := approveUsers tid (approveUsers tid s.users) }
        : Store) = { s with users := approveUsers tid s.users }
    rw [approveUsers_idem]
  · intro hall
    show ({ s with users := approveUsers tid s.users } : Store) = s
    rw [approveUsers_noop tid s.users hall]

/-- Witness for C10: the demo admin approves user 1 in `s0`. -/
theorem c10_witness :
    adminUser.role = "admin"
    ∧ ((approveH adminUser 1 s0).1.loads = s0.loads
        ∧ (approveH adminUser 1 s0).1.trucks = s0.trucks
        ∧ (approveH adminUser 1 s0).1.applications = s0.applications
        ∧ (approveH adminUser 1 s0).1.messages = s0.messages
        ∧ (approveH adminUser 1 s0).1.reviews = s0.reviews) :=
  ⟨rfl, (c10_approve_frame adminUser 1 s0 rfl).1⟩

end TruckFlow
